import Mathlib

/-!
Verification of the Kui VFS layer: a shallow embedding of
`plugins/plugin-kubectl/src/lib/util/fetch-file.ts` (remote fetch client)
and of the S3 VFS url/responder module (URL formatter, S3VFSResponder).

Stateful or effectful TypeScript is modelled by explicit state passing:
each network attempt is an oracle `Nat → Except FetchError …` giving the
outcome of the i-th attempt, and timer waits are accumulated as a `Nat`
of milliseconds.
-/

namespace KuiVFS

/-- A JS `Error` as observed by the fetch client: `code` models `err.code`
(absent modelled as `""`), `message` models `err.message`. -/
structure FetchError where
  code : String
  message : String
deriving DecidableEq, Repr

/-- The `{ statusCode, body }` pair returned by needle. -/
structure HttpResponse where
  statusCode : Nat
  body : String
deriving DecidableEq, Repr

/-- `MAX_ECONNREFUSED_RETRIES` from fetch-file.ts line 30. -/
def MAX_ECONNREFUSED_RETRIES : Nat := 10

/-- The retry loop of `_needle` (fetch-file.ts lines 117-142), native
(non-browser) branch.  `attempts i` is the outcome of the needle call made
with `retryCount = i`.  On an error whose `code` is `"ECONNREFUSED"` and
with `retryCount < MAX_ECONNREFUSED_RETRIES`, the code waits 50ms
(`setTimeout(..., 50)`) and re-invokes itself with `retryCount + 1`;
any other error is rethrown.  Returns the final outcome together with the
total milliseconds spent waiting in `setTimeout`. -/
def needleRetry (attempts : Nat → Except FetchError HttpResponse) (retryCount : Nat) :
    Except FetchError HttpResponse × Nat :=
  match attempts retryCount with
  | Except.ok r => (Except.ok r, 0)
  | Except.error err =>
    if h : err.code = "ECONNREFUSED" ∧ retryCount < MAX_ECONNREFUSED_RETRIES then
      let rest := needleRetry attempts (retryCount + 1)
      (rest.1, 50 + rest.2)
    else
      (Except.error err, 0)
termination_by MAX_ECONNREFUSED_RETRIES - retryCount
decreasing_by omega

/-- `t` is a leading segment of `s` (character lists).  Executable helper
used to express the JS string/regex primitives of the source. -/
def listStartsWith : List Char → List Char → Bool
  | _, [] => true
  | [], _ :: _ => false
  | a :: xs, b :: ys => a = b && listStartsWith xs ys

/-- JS `s.startsWith(t)` / regex `^t`. -/
def strStartsWith (s t : String) : Bool :=
  listStartsWith s.data t.data

/-- JS `s.endsWith(t)` / regex `t$`. -/
def strEndsWith (s t : String) : Bool :=
  listStartsWith s.data.reverse t.data.reverse

/-- The character sequence `nd` occurs somewhere inside the second
list. -/
def listContainsSeq (nd : List Char) : List Char → Bool
  | [] => listStartsWith [] nd
  | c :: rest => listStartsWith (c :: rest) nd || listContainsSeq nd rest

/-- JS `/pat/.test(s)` for a pattern `pat` of plain characters:
substring containment. -/
def strContainsSub (s pat : String) : Bool :=
  listContainsSeq pat.data s.data

/-- JS `String.prototype.toLowerCase` on the ASCII range (the kinds fed
to the URL formatter are ASCII identifiers). -/
def charToLowerJS (c : Char) : Char :=
  if 65 ≤ c.toNat ∧ c.toNat ≤ 90 then Char.ofNat (c.toNat + 32) else c

/-- JS `s.toLowerCase()`. -/
def strToLowerJS (s : String) : String :=
  String.mk (s.data.map charToLowerJS)

/-- Split a character list at every occurrence of `sep` (JS
`s.split(sep)`). -/
def splitOnCharList (sep : Char) : List Char → List (List Char)
  | [] => [[]]
  | c :: rest =>
    let r := splitOnCharList sep rest
    if c = sep then [] :: r
    else
      match r with
      | [] => [[c]]
      | h :: t => (c :: h) :: t

/-- JS `s.split(/\n/)`. -/
def splitLinesJS (s : String) : List String :=
  (splitOnCharList '\n' s.data).map String.mk

/-- The message test of `retry` in `fetchRemote` (fetch-file.ts line 169):
`/timeout/.test(err.message) || /hang up/.test(err.message) ||
/hangup/.test(err.message)`. -/
def isTransientTransportMessage (msg : String) : Bool :=
  strContainsSub msg "timeout" ||
  strContainsSub msg "hang up" ||
  strContainsSub msg "hangup"

/-- State threaded through `fetchRemote`'s catch chain: the current
outcome, total milliseconds waited so far, and the index of the next
attempt that would be issued by a further `fetchOnce()`. -/
structure FetchRemoteState where
  outcome : Except FetchError String
  waitMs : Nat
  nextAttempt : Nat
deriving Repr

/-- One `.catch(retry(delay))` stage of `fetchRemote` (fetch-file.ts
lines 168-176): a success passes through; an error of the
timeout/hang-up class waits `delay` ms and re-issues `fetchOnce()`
(the next attempt); any other error is rethrown unchanged. -/
def catchRetry (attempts : Nat → Except FetchError String) (delay : Nat)
    (s : FetchRemoteState) : FetchRemoteState :=
  match s.outcome with
  | Except.ok _ => s
  | Except.error err =>
    if isTransientTransportMessage err.message then
      { outcome := attempts s.nextAttempt
        waitMs := s.waitMs + delay
        nextAttempt := s.nextAttempt + 1 }
    else
      s

/-- `fetchRemote` (fetch-file.ts lines 164-183):
`fetchOnce().catch(retry(500)).catch(retry(1000)).catch(retry(5000))`.
`attempts i` is the body produced (or error raised) by the i-th
`fetchOnce()` invocation. -/
def fetchRemote (attempts : Nat → Except FetchError String) : FetchRemoteState :=
  catchRetry attempts 5000 (catchRetry attempts 1000 (catchRetry attempts 500
    { outcome := attempts 0, waitMs := 0, nextAttempt := 1 }))

/-- What the top of `_needle` (fetch-file.ts lines 113-161) does, as a
function of the execution context.  In the native branch the function
performs the local needle fetch with the ECONNREFUSED retry loop; in the
browser branch it never touches the network directly: without a proxy it
throws `strings('Unable to fetch remote file')`, with a proxy it re-issues
the fetch as the remote command `_fetchfile <url>` and returns
`{ statusCode: 200, body: content[0] }` where `content` is the content
array of the proxy's response. -/
inductive NeedleDispatch where
  /-- native: fetch directly via needle (with the retry loop). -/
  | direct (url : String)
  /-- browser, no proxy: throw the given error message. -/
  | failUnavailable (message : String)
  /-- browser with proxy: the remote command issued, and the result
  returned to the caller (statusCode, body = head of the proxy
  response's content array, if any). -/
  | viaProxy (command : String) (statusCode : Nat) (body : Option String)
deriving DecidableEq, Repr

/-- The `statusCode` the caller of `_needle` observes, when the
dispatch produced one without a direct network fetch. -/
def dispatchStatusCode : NeedleDispatch → Option Nat
  | NeedleDispatch.viaProxy _ sc _ => Option.some sc
  | _ => Option.none

/-- Upper-case hexadecimal digit for `n < 16`. -/
def hexDigitUpper (n : Nat) : Char :=
  if n < 10 then Char.ofNat (48 + n) else Char.ofNat (55 + n)

/-- `%HH` percent-escape of one byte value. -/
def percentEscapeByte (b : Nat) : String :=
  String.mk ['%', hexDigitUpper (b / 16 % 16), hexDigitUpper (b % 16)]

/-- The UTF-8 byte values of one character (as JS engines emit for
`encodeURIComponent`). -/
def utf8ByteList (c : Char) : List Nat :=
  let n := c.toNat
  if n < 0x80 then [n]
  else if n < 0x800 then [0xC0 + n / 0x40, 0x80 + n % 0x40]
  else if n < 0x10000 then
    [0xE0 + n / 0x1000, 0x80 + n / 0x40 % 0x40, 0x80 + n % 0x40]
  else
    [0xF0 + n / 0x40000, 0x80 + n / 0x1000 % 0x40, 0x80 + n / 0x40 % 0x40, 0x80 + n % 0x40]

/-- The characters `encodeURIComponent` leaves unescaped:
`A-Z a-z 0-9 - _ . ! ~ * ' ( )`. -/
def isUnescapedURIChar (c : Char) : Bool :=
  (65 ≤ c.toNat && c.toNat ≤ 90) || (97 ≤ c.toNat && c.toNat ≤ 122) ||
  (48 ≤ c.toNat && c.toNat ≤ 57) ||
  c = '-' || c = '_' || c = '.' || c = '!' || c = '~' || c = '*' ||
  c = '\'' || c = '(' || c = ')'

/-- JS `encodeURIComponent`: unescaped characters pass through, every
other character is replaced by the `%HH` escapes of its UTF-8 bytes. -/
def encodeURIComponentJS (s : String) : String :=
  s.data.foldl
    (fun acc c =>
      if isUnescapedURIChar c then acc.push c
      else acc ++ String.join ((utf8ByteList c).map percentEscapeByte))
    ""

/-- Modelled from the spec: `encodeComponent` of the kui core (not under
src/) encodes an argument crossing the command-line-shaped remote
execution channel ("Percent-encoding is mandatory on every path/query
component crossing a command-line-shaped boundary"); modelled as the
percent-encoding `encodeURIComponentJS`. -/
def encodeComponent (s : String) : String :=
  encodeURIComponentJS s

/-- The remote command `_fetchfile ${encodeComponent(url)}` issued by the
browser branch of `_needle` (fetch-file.ts line 154). -/
def fetchfileCommand (url : String) : String :=
  "_fetchfile " ++ encodeComponent url

/-- The context branch of `_needle` (fetch-file.ts lines 113, 143-161).
`inBrowser` and `hasProxy` model the kui-core predicates of the same
names; `proxyContent` models the `content` array of the
`_fetchfile` remote command's response. -/
def needleDispatch (inBrowser hasProxy : Bool) (url : String)
    (proxyContent : List String) : NeedleDispatch :=
  if !inBrowser then
    NeedleDispatch.direct url
  else
    if !hasProxy then
      NeedleDispatch.failUnavailable "Unable to fetch remote file"
    else
      NeedleDispatch.viaProxy (fetchfileCommand url) 200 proxyContent.head?

/-!  URL formatter (`urlFormatterFor`, url.ts lines 24-73). -/

/-- The `Explained` resource-kind descriptor consumed by
`urlFormatterFor`: kind name, apiVersion, and cluster-scopedness. -/
structure Explained where
  kind : String
  version : String
  isClusterScoped : Bool
deriving Repr

/-- The value returned by `getLabel({ parsedOptions })`: absent (JS
`undefined`), a single selector string, or an array of selector
strings. -/
inductive LabelOption where
  | none
  | single (l : String)
  | many (ls : List String)
deriving Repr

/-- The parsed command-line options `urlFormatterFor` reads:
`getLabel`, `parsedOptions['field-selector']` (when a string),
`parsedOptions.limit` (when a number), and `isForAllNamespaces`. -/
structure ParsedOptions where
  label : LabelOption
  fieldSelector : Option String
  limit : Option Nat
  allNamespaces : Bool
deriving Repr

/-- The `labelSelector=` query terms accumulated by `urlFormatterFor`
(url.ts lines 47-56): a falsy label contributes nothing; an array
contributes one percent-encoded `labelSelector=` term per element; a
(nonempty) string contributes a single term. -/
def labelQueries : LabelOption → List String
  | LabelOption.none => []
  | LabelOption.single l =>
    if l = "" then [] else ["labelSelector=" ++ encodeURIComponentJS l]
  | LabelOption.many ls => ls.map (fun l => "labelSelector=" ++ encodeURIComponentJS l)

/-- The full `queries` array of `urlFormatterFor` (url.ts lines 44-66):
the label selector terms, then a single `fieldSelector` term carrying
the (already comma-chained) field-selector string, then a `limit`
term. -/
def urlQueries (opts : ParsedOptions) : List String :=
  labelQueries opts.label ++
  (match opts.fieldSelector with
   | Option.some fs => if fs = "" then [] else ["fieldSelector=" ++ encodeURIComponentJS fs]
   | Option.none => []) ++
  (match opts.limit with
   | Option.some n => ["limit=" ++ toString n]
   | Option.none => [])

/-- The formatter closure returned by `urlFormatterFor` (url.ts lines
24-73), applied to `(includeKind, includeQueries, name?)`.  `ns` is the
namespace argument.  Field by field:
`kindOnPath` pluralizes the lowercased kind (append `s` unless the kind
already ends in `s`); `apiOnPath` is `api/v1` exactly when the version is
`v1`; the namespace segment is omitted for all-namespaces requests, for
the `Namespace` kind itself, and for cluster-scoped kinds; the query
string is appended only when requested and nonempty. -/
def urlFormatterFor (ns : String) (opts : ParsedOptions) (e : Explained)
    (includeKind includeQueries : Bool) (name : Option String) : String :=
  let kindOnPath :=
    "/" ++ encodeURIComponentJS (strToLowerJS e.kind ++ (if strEndsWith e.kind "s" then "" else "s"))
  let apiOnPath :=
    if e.version = "v1" then "api/v1" else "apis/" ++ encodeURIComponentJS e.version
  let namespaceOnPath :=
    if opts.allNamespaces then ""
    else if e.kind = "Namespace" then ""
    else if e.isClusterScoped then ""
    else "/namespaces/" ++ encodeURIComponentJS ns
  let queries := urlQueries opts
  "kubernetes:///" ++ apiOnPath ++ namespaceOnPath ++
  (if includeKind then kindOnPath else "") ++
  (match name with
   | Option.some n => if n = "" then "" else "/" ++ encodeURIComponentJS n
   | Option.none => "") ++
  (if !includeQueries || queries.length = 0 then "" else "?" ++ String.intercalate "&" queries)

/-!  S3VFSResponder (url.ts lines 158-795). -/

/-- Decidable equality for `Except`, so that concrete operation outcomes
can be checked by evaluation. -/
instance {ε α : Type} [DecidableEq ε] [DecidableEq α] : DecidableEq (Except ε α) :=
  fun x y =>
    match x, y with
    | Except.ok a, Except.ok b =>
      if h : a = b then isTrue (by rw [h])
      else isFalse (by intro hc; cases hc; exact h rfl)
    | Except.ok _, Except.error _ => isFalse (by intro hc; cases hc)
    | Except.error _, Except.ok _ => isFalse (by intro hc; cases hc)
    | Except.error a, Except.error b =>
      if h : a = b then isTrue (by rw [h])
      else isFalse (by intro hc; cases hc; exact h rfl)

/-- An error raised by the minio storage client as the responder reads
it: `message`, and the (possibly absent, i.e. falsy) `httpstatuscode`
and `code` fields. -/
structure S3ClientError where
  message : String
  httpstatuscode : Option String
  code : Option String
deriving DecidableEq, Repr

/-- The coded error built when the responder wraps an upstream storage
error: `new Error(err.message)` followed by
`error.code = err['httpstatuscode'] || err['code']`. -/
structure CodedError where
  message : String
  code : Option String
deriving DecidableEq, Repr

/-- The wrap itself (url.ts lines 530-532, 548-550): the message is
preserved and the `code` field is `httpstatuscode` when present, else
`code`. -/
def wrapCodedError (e : S3ClientError) : CodedError :=
  { message := e.message
    code := match e.httpstatuscode with
            | Option.some c => Option.some c
            | Option.none => e.code }

/-- `cp` (url.ts lines 496-534) catches any error of its inner copy
strategies and re-throws it wrapped as a coded error. -/
def cpErrorWrap {α : Type} (inner : Except S3ClientError α) : Except CodedError α :=
  match inner with
  | Except.ok a => Except.ok a
  | Except.error e => Except.error (wrapCodedError e)

/-- The `stats` record of a `DirEntry` produced by the responder. -/
structure DirEntryStats where
  size : Nat
  mtimeMs : Nat
  mode : Nat
  uid : Nat
  gid : Nat
deriving DecidableEq, Repr

/-- The `dirent` record of a `DirEntry` produced by the responder. -/
structure Dirent where
  isFile : Bool
  isDirectory : Bool
  isSymbolicLink : Bool
  isSpecial : Bool
  isExecutable : Bool
  permissions : String
  username : String
deriving DecidableEq, Repr

/-- One listing result (`DirEntry`) as built by `listBuckets` /
`listObjectsMatching`. -/
structure DirEntry where
  name : String
  path : String
  stats : DirEntryStats
  nameForDisplay : String
  dirent : Dirent
deriving DecidableEq, Repr

/-- `dirstat` (url.ts lines 286-304) as a function of the outcomes of
the client enumerations it may perform.  For the empty path it returns
`listBuckets()` with a `.catch` that rethrows `new Error(err.message)`
— and since that promise is returned (not awaited) inside the `try`,
the surrounding catch does NOT intercept it.  For a nonempty path it
awaits `listObjects`, so an enumeration error lands in the surrounding
catch, which logs it and returns `[]`. -/
def dirstat (filepath : String)
    (listBucketsRes : Except S3ClientError (List DirEntry))
    (listObjectsRes : Except S3ClientError (List DirEntry)) :
    Except String (List DirEntry) :=
  if filepath.length = 0 then
    match listBucketsRes with
    | Except.ok entries => Except.ok entries
    | Except.error e => Except.error e.message
  else
    match listObjectsRes with
    | Except.ok entries => Except.ok entries
    | Except.error _ => Except.ok []

/-- The strip of `this.s3Prefix` (url.ts line 113): the RegExp
`^<mountPath>\/?` replaced by the empty string (greedy, so the optional
slash is consumed when present; no-op when the path does not start with
the mount path). -/
def stripS3Mount (mountPath filepath : String) : String :=
  if strStartsWith filepath (mountPath ++ "/") then
    String.mk (filepath.data.drop (mountPath.length + 1))
  else if strStartsWith filepath mountPath then
    String.mk (filepath.data.drop mountPath.length)
  else filepath

/-- `split` (url.ts lines 306-309): on the mount-stripped path, the
regex `([^/]+)\/?(.*)\*?` takes `bucketName` as the first maximal
nonempty run of non-slash characters and `fileName` as everything after
one optional slash (the trailing `\*?` always matches the empty string
because `(.*)` is greedy). -/
def splitPath (mountPath filepath : String) : String × String :=
  let s := stripS3Mount mountPath filepath
  let bucketName := s.data.takeWhile (fun c => c ≠ '/')
  let rest := s.data.drop bucketName.length
  let fileName :=
    match rest with
    | '/' :: r => r
    | r => r
  (String.mk bucketName, String.mk fileName)

/-- One download performed by `fGetObject`: the bucket/object pair
passed to `client.fGetObject` and the local destination path. -/
structure Download where
  bucketName : String
  fileName : String
  dst : String
deriving DecidableEq, Repr

/-- `fGetObject` (url.ts lines 357-404), the storage→external copy.
`dstIsDirectory` is the outcome of the `fs.stat` on the destination
(`false` also covers ENOENT, i.e. copying to a new file);
`resolvedSources` are the paths of `(await sources).content`, the
expansion of `srcFilepaths` performed by the `vfs ls` remote command.
The guard compares `srcFilepaths.length` — the number of source path
arguments, not the number of resolved sources — against 1.  On success
every resolved object is downloaded, to `join(dstFilepath, fileName)`
when the destination is a directory and to `dstFilepath` itself
otherwise (`join` modelled as slash concatenation). -/
def fGetObject (mountPath : String) (dstIsDirectory : Bool)
    (srcFilepaths resolvedSources : List String) (dstFilepath : String) :
    Except String (List Download) :=
  if !dstIsDirectory && srcFilepaths.length > 1 then
    Except.error "Destination is not a directory"
  else
    Except.ok (resolvedSources.map (fun src =>
      let bf := splitPath mountPath src
      { bucketName := bf.1
        fileName := bf.2
        dst := if dstIsDirectory then dstFilepath ++ "/" ++ bf.2 else dstFilepath }))

/-- The error-message refinement of `mkdir` (url.ts lines 623-638): when
the client rejects with `/Invalid bucket name/`, the first matching
constraint in the fixed order (min length, max length, underscore,
trailing dash, dot) is appended to the client's message; otherwise the
client's message is rethrown as-is. -/
def mkdirErrorMessage (bucketName errMessage : String) : String :=
  if strContainsSub errMessage "Invalid bucket name" then
    if bucketName.length ≤ 2 then
      errMessage ++ ". Bucket names must have at least 3 characters."
    else if bucketName.length > 63 then
      errMessage ++ ". Bucket names must have no more than 63 characters."
    else if strContainsSub bucketName "_" then
      errMessage ++ ". Bucket names must not contain underscore."
    else if strEndsWith bucketName "-" then
      errMessage ++ ". Bucket names must not end with a dash."
    else if strContainsSub bucketName "." then
      errMessage ++ ". Bucket names must not contain dots."
    else errMessage
  else errMessage

/-- `mkdir` (url.ts lines 618-640): split the path, call
`client.makeBucket(bucketName, '')`, and on failure raise the refined
message. -/
def mkdir (mountPath filepath : String)
    (makeBucketRes : Except S3ClientError Unit) : Except String Unit :=
  let bucketName := (splitPath mountPath filepath).1
  match makeBucketRes with
  | Except.ok _ => Except.ok ()
  | Except.error e => Except.error (mkdirErrorMessage bucketName e.message)

/-- Modelled from the spec: the external `micromatch.isMatch(str,
pattern)` glob test used by the responder ("filtering client-side by
glob match against prefix+suffix"), for the fragment exercised here:
literal characters, `*` (any sequence: the pattern tail must match some
suffix of the string) and `?` (any one character).  First argument is
the pattern, second the candidate string. -/
def globMatchList : List Char → List Char → Bool
  | [], s => s.isEmpty
  | '*' :: ps, s => s.tails.any (fun t => globMatchList ps t)
  | '?' :: ps, s =>
    match s with
    | [] => false
    | _ :: cs => globMatchList ps cs
  | p :: ps, s =>
    match s with
    | [] => false
    | c :: cs => p = c && globMatchList ps cs

/-- `micromatch.isMatch(str, pattern)`. -/
def isMatch (s pattern : String) : Bool :=
  globMatchList pattern.data s.data

/-- A bucket of the storage backend with its (recursively enumerated)
object names: the state the storage client operates on. -/
structure S3Bucket where
  name : String
  objects : List String
deriving DecidableEq, Repr

/-- A mutating storage-client call issued by `rm`/`rimraf`:
`client.removeObjects` and `client.removeBucket`. -/
inductive ClientOp where
  | removeObjects (bucket : String) (objects : List String)
  | removeBucket (bucket : String)
deriving DecidableEq, Repr

/-- `objectsIn` (url.ts lines 537-552): the recursive listing
`client.listObjects(bucketName, undefined, true)` collected from the
stream — all object names of the bucket. -/
def objectsIn (store : List S3Bucket) (bucketName : String) : List String :=
  match store.find? (fun b => b.name = bucketName) with
  | Option.some b => b.objects
  | Option.none => []

/-- `listBucketsMatching` (url.ts lines 200-203): all buckets filtered
by `micromatch.isMatch(name, pattern)`. -/
def listBucketsMatching (store : List S3Bucket) (pattern : String) : List S3Bucket :=
  store.filter (fun b => isMatch b.name pattern)

/-- `rimraf` (url.ts lines 554-565) as the trace of storage-client
calls it issues: for each bucket matching the pattern, first
`removeObjects` with every object the bucket contains, then
`removeBucket`. -/
def rimraf (store : List S3Bucket) (bucketName : String) : List ClientOp :=
  (listBucketsMatching store bucketName).flatMap (fun b =>
    [ClientOp.removeObjects b.name (objectsIn store b.name),
     ClientOp.removeBucket b.name])

/-- The regex `([^/*{]+)(\/?)([^*{]*)(.*)` of `listObjects` (url.ts
line 207): bucket name up to the first `/`, `*` or `{`; one optional
slash; the literal key part up to the first `*` or `{`; and the
wildcard suffix. -/
def listObjectsSplit (filepath : String) : String × String × String × String :=
  let bn := filepath.data.takeWhile (fun c => c ≠ '/' && c ≠ '*' && c ≠ '{')
  let rest1 := filepath.data.drop bn.length
  let sr : String × List Char :=
    match rest1 with
    | '/' :: r => ("/", r)
    | r => ("", r)
  let keyPart := sr.2.takeWhile (fun c => c ≠ '*' && c ≠ '{')
  let wild := sr.2.drop keyPart.length
  (String.mk bn, sr.1, String.mk keyPart, String.mk wild)

/-- `listObjectsMatching` (url.ts lines 230-283) reduced to the object
names it returns: the client streams the objects of the bucket whose
names start with the given key part, and the stream handler keeps a
name when the pattern is empty and the name equals the key part, or
when the pattern is nonempty and `prefix+pattern` glob-matches the
name. -/
def listObjectsMatchingNames (store : List S3Bucket) (bucketName keyPart pattern : String) :
    List String :=
  (objectsIn store bucketName).filter (fun nm =>
    strStartsWith nm keyPart &&
    ((pattern = "" && nm = keyPart) || (pattern ≠ "" && isMatch nm (keyPart ++ pattern))))

/-- `listObjects` (url.ts lines 206-227) reduced to names: split the
path by the fixed grammar, choose the effective pattern, then list
matching buckets only (`-d` without a slash), objects of every matching
bucket (no slash), or objects of the named bucket. -/
def listObjectNames (store : List S3Bucket) (filepath : String) (dashD : Bool) : List String :=
  let q := listObjectsSplit filepath
  let pattern :=
    if q.2.2.1 = "" && (q.2.2.2 = "" || q.2.2.2 = "*") then "*" else q.2.2.2
  if q.2.1 = "" && dashD then
    (listBucketsMatching store filepath).map (fun b => b.name)
  else if q.2.1 = "" then
    (listBucketsMatching store filepath).flatMap (fun b =>
      listObjectsMatchingNames store b.name q.2.2.1 pattern)
  else
    listObjectsMatchingNames store q.1 q.2.2.1 pattern

/-- `rm` (url.ts lines 568-588) as the trace of mutating client calls:
a path with no object part is a bare bucket — without `recursive` this
is an error naming the bucket, with `recursive` it is `rimraf`;
otherwise the objects enumerated for the path are removed from the
bucket. -/
def rm (mountPath : String) (store : List S3Bucket) (filepath : String)
    (recursive : Bool) : Except String (List ClientOp) :=
  let bf := splitPath mountPath filepath
  if bf.2 = "" then
    if !recursive then
      Except.error ("rm: " ++ bf.1 ++ " is a bucket")
    else
      Except.ok (rimraf store bf.1)
  else
    Except.ok
      [ClientOp.removeObjects bf.1 (listObjectNames store (stripS3Mount mountPath filepath) false)]

/-- Matches counted per file by the `-c` branch of `grep` (url.ts line
727): `_.split(/\n/).filter(_ => _).length`. -/
def countMatches (s : String) : Nat :=
  ((splitLinesJS s).filter (fun line => line ≠ "")).length

/-- The three result shapes of `grep`. -/
inductive GrepResult where
  | count (n : Nat)
  | files (fs : List String)
  | matches (ms : List String)
deriving DecidableEq, Repr

/-- The `-l` reduction of `grep` (url.ts lines 730-735): fold over the
per-file results, appending `filepaths[idx]` whenever the idx-th result
is a nonempty string (indexing expressed by zipping the two lists,
which walk in step). -/
def grepMatchingFiles (filepaths perFileResults : List String) : List String :=
  (filepaths.zip perFileResults).foldl
    (fun acc pr => if pr.2.length > 0 then acc ++ [pr.1] else acc) []

/-- `grep` (url.ts lines 713-744) after the per-file scale-out has
produced `perFileResults` (one log string per input path): `-c` sums
the per-file match counts; `-l` keeps the input paths with a nonempty
result; otherwise the raw per-file results are returned, or an
empty-message error is thrown when every result is empty. -/
def grep (cFlag lFlag : Bool) (filepaths perFileResults : List String) :
    Except String GrepResult :=
  if cFlag then
    Except.ok (GrepResult.count ((perFileResults.map countMatches).foldl (· + ·) 0))
  else if lFlag then
    Except.ok (GrepResult.files (grepMatchingFiles filepaths perFileResults))
  else if perFileResults.all (fun s => s.length = 0) then
    Except.error ""
  else
    Except.ok (GrepResult.matches perFileResults)

/-!  Theorems. -/

/-- C5: when the fetch client runs sandboxed in a browser, the fetch is
re-issued as the `_fetchfile` remote command if a proxy is reachable,
fails with the "Unable to fetch remote file" error if none is, and in
no case performs a direct network request. -/
theorem c5_browser_fetch_never_direct :
    (∀ (url : String) (content : List String),
      needleDispatch true true url content =
        NeedleDispatch.viaProxy (fetchfileCommand url) 200 content.head?) ∧
    (∀ (url : String) (content : List String),
      needleDispatch true false url content =
        NeedleDispatch.failUnavailable "Unable to fetch remote file") ∧
    (∀ (hasProxy : Bool) (url u2 : String) (content : List String),
      needleDispatch true hasProxy url content ≠ NeedleDispatch.direct u2) := by
  refine ⟨fun _ _ => rfl, fun _ _ => rfl, ?_⟩
  intro hasProxy url u2 content
  cases hasProxy <;> simp [needleDispatch]

/-- C5 witness: a concrete sandboxed fetch without a proxy fails with
the explicit unavailability error. -/
theorem c5_witness :
    needleDispatch true false "https://k8s.io/examples/d.yaml" [] =
      NeedleDispatch.failUnavailable "Unable to fetch remote file" :=
  c5_browser_fetch_never_direct.2.1 "https://k8s.io/examples/d.yaml" []

/-- C10: in a browser with a proxy available, the fetch result's
statusCode is the constant 200 — the upstream HTTP status of the
proxied request is not even consulted — and the body is the first
content element of the `_fetchfile` response. -/
theorem c10_proxy_fetch_reports_200 :
    ∀ (url : String) (content : List String),
      dispatchStatusCode (needleDispatch true true url content) = Option.some 200 ∧
      needleDispatch true true url content =
        NeedleDispatch.viaProxy (fetchfileCommand url) 200 content.head? :=
  fun _ _ => ⟨rfl, rfl⟩

/-- C7: when the storage client rejects a `mkdir` bucket name as
invalid, the raised message cites the specific violated constraint: a
2-character name cites the minimum length, a 64-character name the
maximum length, an underscore the no-underscore rule, a trailing dash
the no-trailing-dash rule, a dot the no-dot rule. -/
theorem c7_mkdir_invalid_bucket_name_guidance :
    mkdir "/s3/m" "/s3/m/ab"
        (Except.error ⟨"Invalid bucket name", Option.none, Option.none⟩) =
      Except.error "Invalid bucket name. Bucket names must have at least 3 characters." ∧
    mkdir "/s3/m" ("/s3/m/" ++ String.mk (List.replicate 64 'a'))
        (Except.error ⟨"Invalid bucket name", Option.none, Option.none⟩) =
      Except.error "Invalid bucket name. Bucket names must have no more than 63 characters." ∧
    mkdir "/s3/m" "/s3/m/Has_Underscore"
        (Except.error ⟨"Invalid bucket name", Option.none, Option.none⟩) =
      Except.error "Invalid bucket name. Bucket names must not contain underscore." ∧
    mkdir "/s3/m" "/s3/m/trailingdash-"
        (Except.error ⟨"Invalid bucket name", Option.none, Option.none⟩) =
      Except.error "Invalid bucket name. Bucket names must not end with a dash." ∧
    mkdir "/s3/m" "/s3/m/has.dot"
        (Except.error ⟨"Invalid bucket name", Option.none, Option.none⟩) =
      Except.error "Invalid bucket name. Bucket names must not contain dots." := by
  decide

/-- C1 counterexample: with a non-directory destination and a single
source path that resolves to two objects, `fGetObject` succeeds — both
objects are downloaded to the destination path — rather than failing
with "Destination is not a directory", although more than one source
resolved. -/
theorem c1_counterexample :
    (["/s3/m/b/x1", "/s3/m/b/x2"] : List String).length > 1 ∧
    fGetObject "/s3/m" false ["/s3/m/b/x*"] ["/s3/m/b/x1", "/s3/m/b/x2"] "/tmp/f" ≠
      Except.error "Destination is not a directory" := by
  decide

/-- C1 (amended): for a storage→external copy to a non-directory
destination, `fGetObject` fails with "Destination is not a directory"
when more than one source PATH is given (the guard counts the source
path arguments, not the resolved sources); with a single source path it
succeeds, downloading every resolved object to the destination path
itself. -/
theorem c1_storage_to_external_dst_check :
    (∀ (mountPath dst : String) (srcs resolved : List String),
      srcs.length > 1 →
      fGetObject mountPath false srcs resolved dst =
        Except.error "Destination is not a directory") ∧
    (∀ (mountPath src dst : String) (resolved : List String),
      fGetObject mountPath false [src] resolved dst =
        Except.ok (resolved.map (fun s =>
          { bucketName := (splitPath mountPath s).1
            fileName := (splitPath mountPath s).2
            dst := dst }))) := by
  constructor
  · intro mountPath dst srcs resolved h
    simp [fGetObject, h]
  · intro mountPath src dst resolved
    rfl

/-- C1 witness: two explicit source paths to a non-directory destination
are refused. -/
theorem c1_witness :
    fGetObject "/s3/m" false ["/s3/m/b/x", "/s3/m/b/y"] ["/s3/m/b/x", "/s3/m/b/y"] "/tmp/f" =
      Except.error "Destination is not a directory" :=
  c1_storage_to_external_dst_check.1 "/s3/m" "/tmp/f"
    ["/s3/m/b/x", "/s3/m/b/y"] ["/s3/m/b/x", "/s3/m/b/y"] (by decide)

/-- C2 counterexample: an object-listing failure during `ls` of a
nonempty path does NOT surface as an error — `dirstat` swallows it
(logging only) and resolves with an empty listing. -/
theorem c2_counterexample :
    dirstat "bucket/obj" (Except.ok [])
        (Except.error ⟨"upstream failure", Option.none, Option.none⟩) =
      Except.ok [] := by
  decide

/-- C2 (amended): upstream storage errors in `cp` are wrapped — message
preserved, status code copied onto the coded-error field — and
re-thrown, and a bucket-listing failure during `ls` of the mount root
surfaces as an error; but an object-listing failure during `ls` of a
nonempty path is caught and yields an empty listing instead of an
error. -/
theorem c2_upstream_error_wrapping :
    (∀ (α : Type) (e : S3ClientError),
      @cpErrorWrap α (Except.error e) =
        Except.error { message := e.message
                       code := match e.httpstatuscode with
                               | Option.some c => Option.some c
                               | Option.none => e.code }) ∧
    (∀ (e : S3ClientError) (lo : Except S3ClientError (List DirEntry)),
      dirstat "" (Except.error e) lo = Except.error e.message) ∧
    (∀ (fp : String) (lb : Except S3ClientError (List DirEntry)) (e : S3ClientError),
      fp.length ≠ 0 →
      dirstat fp lb (Except.error e) = Except.ok []) := by
  refine ⟨fun _ _ => rfl, fun _ _ => rfl, ?_⟩
  intro fp lb e h
  simp [dirstat, h]

/-- C3: on ECONNREFUSED the client retries up to 10 times with a fixed
50ms delay before each retry; a success within the cap is returned —
after 3 consecutive refusals followed by success the total wait is
exactly 3×50ms — and once the cap is exhausted the error surfaces. -/
theorem c3_econnrefused_retry :
    (∀ (attempts : Nat → Except FetchError HttpResponse) (e : FetchError) (r : HttpResponse),
      e.code = "ECONNREFUSED" →
      (∀ i, i < 3 → attempts i = Except.error e) →
      attempts 3 = Except.ok r →
      needleRetry attempts 0 = (Except.ok r, 150)) ∧
    (∀ (attempts : Nat → Except FetchError HttpResponse) (e : FetchError),
      e.code = "ECONNREFUSED" →
      (∀ i, i ≤ MAX_ECONNREFUSED_RETRIES → attempts i = Except.error e) →
      needleRetry attempts 0 = (Except.error e, 10 * 50)) := by
  constructor
  · intro attempts e r he h3 hok
    have h0 := h3 0 (by omega)
    have h1 := h3 1 (by omega)
    have h2 := h3 2 (by omega)
    simp [needleRetry, h0, h1, h2, hok, he, MAX_ECONNREFUSED_RETRIES]
  · intro attempts e he h
    have h0 := h 0 (by decide)
    have h1 := h 1 (by decide)
    have h2 := h 2 (by decide)
    have h3 := h 3 (by decide)
    have h4 := h 4 (by decide)
    have h5 := h 5 (by decide)
    have h6 := h 6 (by decide)
    have h7 := h 7 (by decide)
    have h8 := h 8 (by decide)
    have h9 := h 9 (by decide)
    have h10 := h 10 (by decide)
    simp [needleRetry, h0, h1, h2, h3, h4, h5, h6, h7, h8, h9, h10, he,
      MAX_ECONNREFUSED_RETRIES]

/-- C3 witness: three concrete refusals then success. -/
theorem c3_witness :
    needleRetry
        (fun i => if i < 3 then Except.error ⟨"ECONNREFUSED", "connect ECONNREFUSED"⟩
                  else Except.ok ⟨200, "ok"⟩) 0 =
      (Except.ok ⟨200, "ok"⟩, 150) :=
  c3_econnrefused_retry.1 _ ⟨"ECONNREFUSED", "connect ECONNREFUSED"⟩ ⟨200, "ok"⟩ rfl
    (fun i hi => by simp [hi]) (by simp)

/-- C4 counterexample: when all four attempts fail with (distinct)
timeout-class errors, the error that surfaces is the one of the FOURTH
attempt (the third retry), not the original first error. -/
theorem c4_counterexample :
    (fetchRemote (fun i =>
        if i = 0 then Except.error ⟨"", "timeout A"⟩
        else if i = 1 then Except.error ⟨"", "timeout B"⟩
        else if i = 2 then Except.error ⟨"", "timeout C"⟩
        else Except.error ⟨"", "timeout D"⟩)).outcome =
      Except.error ⟨"", "timeout D"⟩ ∧
    (FetchError.mk "" "timeout D" ≠ FetchError.mk "" "timeout A") := by
  decide

/-- C4 (amended): for the timeout/connection-reset class the client
retries at most 3 times, waiting 500ms before the first retry, 1000ms
before the second and 5000ms before the third; two timeouts followed by
success return the success after exactly 500+1000ms of waiting; when
the third retry also fails, the error of the final (fourth) attempt
surfaces with no further retry; a failure outside this class is not
retried. -/
theorem c4_timeout_backoff :
    (∀ (attempts : Nat → Except FetchError String) (e0 e1 : FetchError) (r : String),
      isTransientTransportMessage e0.message = true →
      isTransientTransportMessage e1.message = true →
      attempts 0 = Except.error e0 →
      attempts 1 = Except.error e1 →
      attempts 2 = Except.ok r →
      fetchRemote attempts = { outcome := Except.ok r, waitMs := 1500, nextAttempt := 3 }) ∧
    (∀ (attempts : Nat → Except FetchError String) (e0 e1 e2 e3 : FetchError),
      isTransientTransportMessage e0.message = true →
      isTransientTransportMessage e1.message = true →
      isTransientTransportMessage e2.message = true →
      attempts 0 = Except.error e0 →
      attempts 1 = Except.error e1 →
      attempts 2 = Except.error e2 →
      attempts 3 = Except.error e3 →
      fetchRemote attempts =
        { outcome := Except.error e3, waitMs := 500 + 1000 + 5000, nextAttempt := 4 }) ∧
    (∀ (attempts : Nat → Except FetchError String) (e : FetchError),
      isTransientTransportMessage e.message = false →
      attempts 0 = Except.error e →
      fetchRemote attempts = { outcome := Except.error e, waitMs := 0, nextAttempt := 1 }) := by
  refine ⟨?_, ?_, ?_⟩
  · intro attempts e0 e1 r ht0 ht1 ha0 ha1 ha2
    simp [fetchRemote, catchRetry, ha0, ha1, ha2, ht0, ht1]
  · intro attempts e0 e1 e2 e3 ht0 ht1 ht2 ha0 ha1 ha2 ha3
    simp [fetchRemote, catchRetry, ha0, ha1, ha2, ha3, ht0, ht1, ht2]
  · intro attempts e ht ha0
    simp [fetchRemote, catchRetry, ha0, ht]

/-- C4 witness: two concrete timeouts then success, with total wait
500+1000ms. -/
theorem c4_witness :
    fetchRemote
        (fun i => if i = 0 then Except.error ⟨"", "connection timeout"⟩
                  else if i = 1 then Except.error ⟨"", "socket hang up"⟩
                  else Except.ok "payload") =
      { outcome := Except.ok "payload", waitMs := 1500, nextAttempt := 3 } :=
  c4_timeout_backoff.1 _ ⟨"", "connection timeout"⟩ ⟨"", "socket hang up"⟩ "payload"
    (by decide) (by decide) rfl rfl rfl

/-- C2 witness: the swallowing branch at a concrete nonempty path. -/
theorem c2_witness :
    dirstat "mybucket" (Except.ok [])
        (Except.error ⟨"boom", Option.some "500", Option.none⟩) =
      Except.ok [] :=
  c2_upstream_error_wrapping.2.2 "mybucket" (Except.ok [])
    ⟨"boom", Option.some "500", Option.none⟩ (by decide)

/-- C6: for a namespaced, non-cluster-scoped kind with multiple label
selectors, each selector becomes its own percent-encoded
`labelSelector=` query term joined by `&` — the query suffix is exactly
the `&`-join of one term per selector (not a comma-join): and in
particular with the selectors `a=1` and `b=2`, `formatter(true, true)`
yields a URL ending `?labelSelector=a%3D1&labelSelector=b%3D2`. -/
theorem c6_label_selector_terms :
    (∀ (ns : String) (e : Explained) (l : String) (ls : List String),
      urlFormatterFor ns ⟨LabelOption.many (l :: ls), Option.none, Option.none, false⟩ e
          true true Option.none =
        urlFormatterFor ns ⟨LabelOption.many (l :: ls), Option.none, Option.none, false⟩ e
          true false Option.none ++
        "?" ++ String.intercalate "&"
          ((l :: ls).map (fun x => "labelSelector=" ++ encodeURIComponentJS x))) ∧
    strEndsWith
      (urlFormatterFor "default" ⟨LabelOption.many ["a=1", "b=2"], Option.none, Option.none, false⟩
        ⟨"Pod", "v1", false⟩ true true Option.none)
      "?labelSelector=a%3D1&labelSelector=b%3D2" = true := by
  constructor
  · intro ns e l ls
    simp [urlFormatterFor, urlQueries, labelQueries, String.append_assoc]
  · decide

/-- In a flatMap that emits the pair `[f x, g x]` for every element of
the list, each member contributes both entries, the `f` entry strictly
before the `g` entry. -/
theorem flatMap_pair_get {α β : Type} (f g : α → β) :
    ∀ (l : List α) (b : α), b ∈ l →
      ∃ i j, i < j ∧
        (l.flatMap (fun x => [f x, g x])).get? i = Option.some (f b) ∧
        (l.flatMap (fun x => [f x, g x])).get? j = Option.some (g b) := by
  intro l
  induction l with
  | nil => intro b hb; cases hb
  | cons a t ih =>
    intro b hb
    cases hb with
    | head =>
      exact ⟨0, 1, by omega, rfl, rfl⟩
    | tail _ ht =>
      obtain ⟨i, j, hij, hi, hj⟩ := ih b ht
      refine ⟨i + 2, j + 2, by omega, ?_, ?_⟩
      · simpa [List.flatMap_cons] using hi
      · simpa [List.flatMap_cons] using hj

/-- C8: `rm` on a path that names a bare bucket (empty object part
after splitting) fails without the recursive flag with an error
identifying the path as a bucket; with the recursive flag it performs
`rimraf`, whose client-call trace removes, for every bucket matching
the name, all objects contained in that bucket strictly before removing
the bucket itself. -/
theorem c8_rm_bare_bucket :
    (∀ (mountPath : String) (store : List S3Bucket) (filepath : String),
      (splitPath mountPath filepath).2 = "" →
      rm mountPath store filepath false =
        Except.error ("rm: " ++ (splitPath mountPath filepath).1 ++ " is a bucket")) ∧
    (∀ (mountPath : String) (store : List S3Bucket) (filepath : String),
      (splitPath mountPath filepath).2 = "" →
      rm mountPath store filepath true =
        Except.ok (rimraf store (splitPath mountPath filepath).1) ∧
      ∀ b ∈ store, isMatch b.name (splitPath mountPath filepath).1 = true →
        ∃ i j, i < j ∧
          (rimraf store (splitPath mountPath filepath).1).get? i =
            Option.some (ClientOp.removeObjects b.name (objectsIn store b.name)) ∧
          (rimraf store (splitPath mountPath filepath).1).get? j =
            Option.some (ClientOp.removeBucket b.name)) := by
  constructor
  · intro mountPath store filepath h
    simp [rm, h]
  · intro mountPath store filepath h
    refine ⟨by simp [rm, h], ?_⟩
    intro b hb hm
    have hmem : b ∈ listBucketsMatching store (splitPath mountPath filepath).1 := by
      simp only [listBucketsMatching, List.mem_filter]
      exact ⟨hb, hm⟩
    have := flatMap_pair_get
      (fun x : S3Bucket => ClientOp.removeObjects x.name (objectsIn store x.name))
      (fun x : S3Bucket => ClientOp.removeBucket x.name)
      (listBucketsMatching store (splitPath mountPath filepath).1) b hmem
    simpa [rimraf] using this

/-- C8 witness: refusing a concrete bare-bucket path without the
recursive flag. -/
theorem c8_witness :
    rm "/s3/m" [⟨"b1", ["o1"]⟩] "/s3/m/b1" false =
      Except.error "rm: b1 is a bucket" := by
  have h := c8_rm_bare_bucket.1 "/s3/m" [⟨"b1", ["o1"]⟩] "/s3/m/b1" (by decide)
  exact h.trans (by decide)

/-- The `-l` fold of `grep` collects exactly the first components of
the zipped (path, result) pairs whose result is nonempty. -/
theorem grepMatchingFiles_eq_filter (fps res : List String) :
    grepMatchingFiles fps res =
      ((fps.zip res).filter (fun pr => pr.2.length > 0)).map Prod.fst := by
  have gen : ∀ (L : List (String × String)) (acc : List String),
      L.foldl (fun acc pr => if pr.2.length > 0 then acc ++ [pr.1] else acc) acc =
        acc ++ (L.filter (fun pr => pr.2.length > 0)).map Prod.fst := by
    intro L
    induction L with
    | nil => intro acc; simp
    | cons p t ih =>
      intro acc
      by_cases h : p.2.length > 0
      · simp [h, ih]
      · simp [h, ih]
  simpa [grepMatchingFiles] using gen (fps.zip res) []

/-- C9: with the count flag `grep` returns the single sum of the
per-file match counts; with the filenames flag it returns exactly the
input paths whose per-file result shows at least one match (a nonempty
result string); otherwise it returns the raw per-file results, failing
with the empty-result condition exactly when every file had zero
matches. -/
theorem c9_grep_result_shapes :
    (∀ (lFlag : Bool) (fps res : List String),
      grep true lFlag fps res =
        Except.ok (GrepResult.count (res.map countMatches).sum)) ∧
    (∀ (fps res : List String),
      grep false true fps res =
        Except.ok (GrepResult.files
          (((fps.zip res).filter (fun pr => pr.2.length > 0)).map Prod.fst))) ∧
    (∀ (fps res : List String), (∀ s ∈ res, s.length = 0) →
      grep false false fps res = Except.error "") ∧
    (∀ (fps res : List String) (s : String), s ∈ res → s.length ≠ 0 →
      grep false false fps res = Except.ok (GrepResult.matches res)) := by
  refine ⟨?_, ?_, ?_, ?_⟩
  · intro lFlag fps res
    simp [grep, List.sum_eq_foldl]
  · intro fps res
    simp [grep, grepMatchingFiles_eq_filter]
  · intro fps res h
    have hall : res.all (fun s => decide (s.length = 0)) = true := by
      rw [List.all_eq_true]
      intro s hs
      simpa using h s hs
    simp [grep, hall]
  · intro fps res s hs hlen
    have hfalse : res.all (fun s => decide (s.length = 0)) = false := by
      rw [← Bool.not_eq_true, List.all_eq_true]
      push_neg
      refine ⟨s, hs, by simpa using hlen⟩
    simp [grep, hfalse]

/-- C9 witness: one input file with an empty result raises the
empty-result condition. -/
theorem c9_witness :
    grep false false ["f1"] [""] = Except.error "" :=
  c9_grep_result_shapes.2.2.1 ["f1"] [""]
    (by intro s hs; simp only [List.mem_singleton] at hs; subst hs; rfl)

end KuiVFS
